import Mathlib

set_option maxRecDepth 8000

/-!
Verification of the goodtogo merge-readiness analyzer.

The comment-classification parsers (CodeRabbit, Vercel) are embedded from
src/src/goodtogo/parsers/coderabbit.py and src/src/goodtogo/parsers/vercel.py.
Regular-expression searches are embedded as token-list matchers over lists of
characters: each Python pattern becomes a list of tokens (case-sensitive or
case-insensitive literals, plus zero-or-more / one-or-more whitespace gaps),
searched at every position of the body, or only at line starts for the
MULTILINE anchored patterns.

Components of the repository that are not under src (the status aggregator,
the cache consistency rule of analyze, build_cache_key, and the
CursorBugbot / Generic parsers) are modelled from the spec; each such
definition carries a doc comment saying so.
-/

/-- Comment classification enum, from goodtogo.core.models. -/
inductive CommentClassification
  | ACTIONABLE
  | NON_ACTIONABLE
  | AMBIGUOUS
deriving DecidableEq, Repr

/-- Comment priority enum, from goodtogo.core.models. -/
inductive Priority
  | CRITICAL
  | MAJOR
  | MINOR
  | TRIVIAL
  | UNKNOWN
deriving DecidableEq, Repr

/-- PR merge-readiness status enum, from goodtogo.core.models. -/
inductive PRStatus
  | READY
  | ACTION_REQUIRED
  | UNRESOLVED_THREADS
  | CI_FAILING
  | ERROR
deriving DecidableEq, Repr

/-- The fields of a comment dictionary that the parsers consult.
`body = none` models a dictionary without a body key (or body None);
`comment.get ("body", "")` then yields the empty string. -/
structure CommentData where
  body : Option String
  path : Option String
  line : Option Nat
  is_resolved : Bool
  is_outdated : Bool
  author : String
deriving DecidableEq, Repr

/-- Python whitespace characters as matched by a regex whitespace class
over str (the characters accepted by str.isspace). -/
def isPyWs (c : Char) : Bool :=
  c == ' ' || c == '\t' || c == '\n' || c == '\r' || c == '\x0b' || c == '\x0c' ||
  c == '\x1c' || c == '\x1d' || c == '\x1e' || c == '\x1f' || c == '\x85' ||
  c == ' ' || c == ' ' ||
  (' ' ≤ c && c ≤ ' ') ||
  c == ' ' || c == ' ' || c == ' ' || c == ' ' || c == '　'

/-- One token of an embedded regular expression: a literal (case-sensitive
when ci is false, case-insensitive when ci is true), a zero-or-more
whitespace gap, or a one-or-more whitespace gap. -/
inductive Tok
  | lit (ci : Bool) (s : String)
  | ws
  | ws1
deriving Repr

/-- Character comparison, optionally case-insensitive (re.IGNORECASE). -/
def charEq (ci : Bool) (p c : Char) : Bool :=
  if ci then p.toLower == c.toLower else p == c

/-- Consume a literal from the front of the input, if it is there. -/
def dropLit (ci : Bool) : List Char → List Char → Option (List Char)
  | [], cs => some cs
  | _ :: _, [] => none
  | p :: ps, c :: cs => if charEq ci p c then dropLit ci ps cs else none

/-- Match a token sequence against a prefix of the input. A whitespace gap
is consumed greedily, which is complete here because no literal in any
embedded pattern begins with a whitespace character. -/
def matchToks : List Tok → List Char → Bool
  | [], _ => true
  | Tok.lit ci s :: ts, cs =>
    match dropLit ci s.data cs with
    | some rest => matchToks ts rest
    | none => false
  | Tok.ws :: ts, cs => matchToks ts (cs.dropWhile isPyWs)
  | Tok.ws1 :: ts, cs =>
    match cs with
    | [] => false
    | c :: rest => isPyWs c && matchToks ts (rest.dropWhile isPyWs)

/-- re.search: try the token sequence at every position of the input. -/
def search (ts : List Tok) : List Char → Bool
  | [] => matchToks ts []
  | c :: rest => matchToks ts (c :: rest) || search ts rest

/-- Helper for multiline search: try the token sequence right after every
newline character of the input. -/
def searchNLAfter (ts : List Tok) : List Char → Bool
  | [] => false
  | c :: rest => (c == '\n' && matchToks ts rest) || searchNLAfter ts rest

/-- re.search with re.MULTILINE and a leading caret: try the token sequence
at the start of the input and right after every newline. -/
def searchNL (ts : List Tok) (cs : List Char) : Bool :=
  matchToks ts cs || searchNLAfter ts cs

/-- CodeRabbit fingerprinting pattern (FINGERPRINT_PATTERN). -/
def crFingerprintPat : List Tok := [Tok.lit true ("<!--"), Tok.ws, Tok.lit true ("fingerprinting:")]

/-- CodeRabbit addressed marker pattern (ADDRESSED_PATTERN). -/
def crAddressedPat : List Tok := [Tok.lit true ("✅"), Tok.ws, Tok.lit true ("Addressed")]

/-- CodeRabbit critical severity pattern (CRITICAL_PATTERN). -/
def crCriticalPat : List Tok :=
  [Tok.lit true ("_⚠️"), Tok.ws, Tok.lit true ("Potential issue_"), Tok.ws,
   Tok.lit true ("|"), Tok.ws, Tok.lit true ("_🔴"), Tok.ws, Tok.lit true ("Critical_")]

/-- CodeRabbit major severity pattern (MAJOR_PATTERN). -/
def crMajorPat : List Tok :=
  [Tok.lit true ("_⚠️"), Tok.ws, Tok.lit true ("Potential issue_"), Tok.ws,
   Tok.lit true ("|"), Tok.ws, Tok.lit true ("_🟠"), Tok.ws, Tok.lit true ("Major_")]

/-- CodeRabbit minor severity pattern (MINOR_PATTERN). -/
def crMinorPat : List Tok :=
  [Tok.lit true ("_⚠️"), Tok.ws, Tok.lit true ("Potential issue_"), Tok.ws,
   Tok.lit true ("|"), Tok.ws, Tok.lit true ("_🟡"), Tok.ws, Tok.lit true ("Minor_")]

/-- CodeRabbit trivial pattern (TRIVIAL_PATTERN). -/
def crTrivialPat : List Tok := [Tok.lit true ("_🔵"), Tok.ws, Tok.lit true ("Trivial_")]

/-- CodeRabbit nitpick pattern (NITPICK_PATTERN). -/
def crNitpickPat : List Tok := [Tok.lit true ("_🧹"), Tok.ws, Tok.lit true ("Nitpick_")]

/-- CodeRabbit outside diff range pattern (OUTSIDE_DIFF_PATTERN). -/
def crOutsideDiffPat : List Tok := [Tok.lit true ("Outside diff range")]

/-- Summary section pattern for a Walkthrough header (case-sensitive, multiline). -/
def crWalkthroughPat : List Tok := [Tok.lit false ("##"), Tok.ws, Tok.lit false ("Walkthrough")]

/-- Summary section pattern for a Changes header (case-sensitive, multiline). -/
def crChangesPat : List Tok := [Tok.lit false ("##"), Tok.ws, Tok.lit false ("Changes")]

/-- Summary section pattern for a Summary header (case-sensitive, multiline). -/
def crSummaryPat : List Tok := [Tok.lit false ("##"), Tok.ws, Tok.lit false ("Summary")]

/-- Summary section pattern for a PR Summary header (case-insensitive, multiline). -/
def crPRSummaryPat : List Tok :=
  [Tok.lit true ("##"), Tok.ws, Tok.lit true ("PR"), Tok.ws1, Tok.lit true ("Summary")]

/-- Summary section pattern for a Review Summary header (case-insensitive, multiline). -/
def crReviewSummaryPat : List Tok :=
  [Tok.lit true ("##"), Tok.ws, Tok.lit true ("Review"), Tok.ws1, Tok.lit true ("Summary")]

/-- Summary section pattern for a File / Changes table row (case-insensitive). -/
def crFileTablePat : List Tok :=
  [Tok.lit true ("|"), Tok.ws, Tok.lit true ("File"), Tok.ws, Tok.lit true ("|"),
   Tok.ws, Tok.lit true ("Changes"), Tok.ws, Tok.lit true ("|")]

/-- Summary section pattern for a mermaid diagram fence (case-insensitive). -/
def crMermaidPat : List Tok := [Tok.lit true ("```mermaid")]

/-- Summary section pattern for an Objectives header (case-insensitive, multiline). -/
def crObjectivesPat : List Tok := [Tok.lit true ("##"), Tok.ws, Tok.lit true ("Objectives")]

/-- Tip callout pattern (case-sensitive, multiline). -/
def crTipPat : List Tok := [Tok.lit false (">"), Tok.ws, Tok.lit false ("[!TIP]")]

/-- Note callout pattern (case-sensitive, multiline). -/
def crNotePat : List Tok := [Tok.lit false (">"), Tok.ws, Tok.lit false ("[!NOTE]")]

/-- Info callout pattern (case-sensitive, multiline). -/
def crInfoPat : List Tok := [Tok.lit false (">"), Tok.ws, Tok.lit false ("[!INFO]")]

/-- CodeRabbitParser._is_summary_content: any SUMMARY_PATTERNS entry matches. -/
def crIsSummaryContent (cs : List Char) : Bool :=
  searchNL crWalkthroughPat cs || searchNL crChangesPat cs || searchNL crSummaryPat cs ||
  searchNL crPRSummaryPat cs || searchNL crReviewSummaryPat cs ||
  search crFileTablePat cs || search crMermaidPat cs || searchNL crObjectivesPat cs

/-- CodeRabbitParser._is_tip_content: any TIP_PATTERNS entry matches. -/
def crIsTipContent (cs : List Char) : Bool :=
  searchNL crTipPat cs || searchNL crNotePat cs || searchNL crInfoPat cs

/-- The body-classification chain of CodeRabbitParser.parse over the
characters of the body, in source order of the checks. -/
def crClassifyChars (cs : List Char) : CommentClassification × Priority × Bool :=
  if cs.isEmpty then (CommentClassification.AMBIGUOUS, Priority.UNKNOWN, true)
  else if search crFingerprintPat cs then (CommentClassification.NON_ACTIONABLE, Priority.UNKNOWN, false)
  else if search crAddressedPat cs then (CommentClassification.NON_ACTIONABLE, Priority.UNKNOWN, false)
  else if search crCriticalPat cs then (CommentClassification.ACTIONABLE, Priority.CRITICAL, false)
  else if search crMajorPat cs then (CommentClassification.ACTIONABLE, Priority.MAJOR, false)
  else if search crMinorPat cs then (CommentClassification.ACTIONABLE, Priority.MINOR, false)
  else if search crTrivialPat cs then (CommentClassification.NON_ACTIONABLE, Priority.TRIVIAL, false)
  else if search crNitpickPat cs then (CommentClassification.NON_ACTIONABLE, Priority.TRIVIAL, false)
  else if search crOutsideDiffPat cs then (CommentClassification.ACTIONABLE, Priority.MINOR, false)
  else if crIsSummaryContent cs then (CommentClassification.NON_ACTIONABLE, Priority.UNKNOWN, false)
  else if crIsTipContent cs then (CommentClassification.NON_ACTIONABLE, Priority.UNKNOWN, false)
  else (CommentClassification.AMBIGUOUS, Priority.UNKNOWN, true)

/-- The body-classification of CodeRabbitParser.parse, applied to the body
string exactly as the Python function examines it. -/
def crClassify (b : String) : CommentClassification × Priority × Bool :=
  crClassifyChars b.data

/-- CodeRabbitParser.parse: reads body via comment.get ("body", "") and
classifies it; no other field of the comment is consulted. -/
def crParse (c : CommentData) : CommentClassification × Priority × Bool :=
  crClassify (c.body.getD "")

/-- VercelParser._parse_impl: every Vercel comment is a deployment status
notification, always (NON_ACTIONABLE, TRIVIAL, false). -/
def vercelParseImpl (_ : CommentData) : CommentClassification × Priority × Bool :=
  (CommentClassification.NON_ACTIONABLE, Priority.TRIVIAL, false)

/-- Modelled from the spec: the ReviewerParser.parse entry point for the
Vercel parser (goodtogo/core/interfaces.py is not under src). Spec section 4.1
states the Vercel parser always classifies NON_ACTIONABLE / TRIVIAL,
independent of resolved and outdated flags and of body content, so parse
delegates to the parser-specific implementation for every comment. -/
def vercelParse (c : CommentData) : CommentClassification × Priority × Bool :=
  vercelParseImpl c

/-- Cursor critical severity pattern, requiring whitespace between the words. -/
def cursorCriticalPat : List Tok := [Tok.lit true ("Critical"), Tok.ws1, Tok.lit true ("Severity")]

/-- Cursor high severity pattern. -/
def cursorHighPat : List Tok := [Tok.lit true ("High"), Tok.ws1, Tok.lit true ("Severity")]

/-- Cursor medium severity pattern. -/
def cursorMediumPat : List Tok := [Tok.lit true ("Medium"), Tok.ws1, Tok.lit true ("Severity")]

/-- Cursor low severity pattern. -/
def cursorLowPat : List Tok := [Tok.lit true ("Low"), Tok.ws1, Tok.lit true ("Severity")]

/-- Modelled from the spec: CursorBugbotParser.parse
(goodtogo/parsers/cursor.py is not under src). Spec section 4.1: the severity
regex requires whitespace between the words; Critical maps to
ACTIONABLE/CRITICAL, High to ACTIONABLE/MAJOR, Medium to ACTIONABLE/MINOR,
Low to NON_ACTIONABLE/TRIVIAL, checked in Critical, High, Medium, Low order;
an unmatched body is AMBIGUOUS/UNKNOWN with requires_investigation true. -/
def cursorClassifyChars (cs : List Char) : CommentClassification × Priority × Bool :=
  if cs.isEmpty then (CommentClassification.AMBIGUOUS, Priority.UNKNOWN, true)
  else if search cursorCriticalPat cs then (CommentClassification.ACTIONABLE, Priority.CRITICAL, false)
  else if search cursorHighPat cs then (CommentClassification.ACTIONABLE, Priority.MAJOR, false)
  else if search cursorMediumPat cs then (CommentClassification.ACTIONABLE, Priority.MINOR, false)
  else if search cursorLowPat cs then (CommentClassification.NON_ACTIONABLE, Priority.TRIVIAL, false)
  else (CommentClassification.AMBIGUOUS, Priority.UNKNOWN, true)

/-- Modelled from the spec: CursorBugbotParser.parse reads the body through
comment.get ("body", "") and classifies its characters. -/
def cursorParse (c : CommentData) : CommentClassification × Priority × Bool :=
  cursorClassifyChars ((c.body.getD "").data)

/-- Modelled from the spec: GenericParser.parse
(goodtogo/parsers/generic.py is not under src). Spec section 4.1: a resolved
comment is NON_ACTIONABLE/UNKNOWN, else an outdated comment is
NON_ACTIONABLE/UNKNOWN, else AMBIGUOUS/UNKNOWN with requires_investigation
true; actionability is never inferred from free text. -/
def genericParse (c : CommentData) : CommentClassification × Priority × Bool :=
  if c.is_resolved then (CommentClassification.NON_ACTIONABLE, Priority.UNKNOWN, false)
  else if c.is_outdated then (CommentClassification.NON_ACTIONABLE, Priority.UNKNOWN, false)
  else (CommentClassification.AMBIGUOUS, Priority.UNKNOWN, true)

/-- Aggregate CI state, from goodtogo.core.models. -/
inductive CIState
  | success
  | failure
  | pending
deriving DecidableEq, Repr

/-- Modelled from the spec: the unresolved-thread count used by the Status
Aggregator (goodtogo/core/analyzer.py is not under src); each element of the
list is the is_resolved flag of one review thread. -/
def unresolvedThreadCount (threads : List Bool) : Nat :=
  (threads.filter (fun r => !r)).length

/-- Modelled from the spec: the Status Aggregator of analyze
(goodtogo/core/analyzer.py is not under src). Spec section 4.2, strict
priority with first match winning: ERROR when an exception occurred, else
CI_FAILING when the aggregate CI state is not success, else
UNRESOLVED_THREADS when the unresolved-thread count is positive, else
ACTION_REQUIRED when at least one comment is classified ACTIONABLE or at
least one is classified AMBIGUOUS, else READY. -/
def determineStatus (errorOccurred : Bool) (ci : CIState) (threads : List Bool)
    (classifications : List CommentClassification) : PRStatus :=
  if errorOccurred then PRStatus.ERROR
  else if ci ≠ CIState.success then PRStatus.CI_FAILING
  else if 0 < unresolvedThreadCount threads then PRStatus.UNRESOLVED_THREADS
  else if 0 < classifications.count CommentClassification.ACTIONABLE ∨
          0 < classifications.count CommentClassification.AMBIGUOUS then
    PRStatus.ACTION_REQUIRED
  else PRStatus.READY

/-- One cache entry: key, value and absolute expiry instant. -/
structure CacheEntry where
  key : String
  value : String
  expiresAt : Nat
deriving DecidableEq, Repr

/-- All suffixes of a character list, the list itself first. -/
def suffixesOf : List Char → List (List Char)
  | [] => [[]]
  | c :: cs => (c :: cs) :: suffixesOf cs

/-- Glob matching as used by invalidate_pattern: a star matches any sequence
of characters (the rest of the pattern must match some suffix), a question
mark matches exactly one character, every other pattern character matches
itself. -/
def globMatch : List Char → List Char → Bool
  | [], s => s.isEmpty
  | c :: ps, s =>
    if c == '*' then (suffixesOf s).any (fun t => globMatch ps t)
    else
      match s with
      | [] => false
      | d :: rest => if c == '?' then globMatch ps rest else c == d && globMatch ps rest

/-- Cache lookup: the stored value of the first entry with the key, a miss
when the entry is expired. Expiry is the lazy is_expired predicate on read. -/
def cacheGet : List CacheEntry → String → Nat → Option String
  | [], _, _ => none
  | e :: rest, key, now =>
    if e.key == key then (if e.expiresAt ≤ now then none else some e.value)
    else cacheGet rest key now

/-- Cache write: replaces any entry with the same key. -/
def cacheSet (cache : List CacheEntry) (key value : String) (expiresAt : Nat) :
    List CacheEntry :=
  CacheEntry.mk key value expiresAt :: cache.filter (fun e => e.key != key)

/-- invalidate_pattern: delete every entry whose key matches the glob. -/
def invalidatePattern : List CacheEntry → String → List CacheEntry
  | [], _ => []
  | e :: rest, pat =>
    if globMatch pat.data e.key.data then invalidatePattern rest pat
    else e :: invalidatePattern rest pat

/-- The shared prefix of the PR-level cache keys of one PR, ending in the
colon before the facet name. -/
def prKeyBase (owner repo : String) (pr : Nat) : String :=
  "pr:" ++ owner ++ ":" ++ repo ++ ":" ++ toString pr ++ ":"

/-- A PR-level facet cache key. -/
def prFacetKey (owner repo : String) (pr : Nat) (facet : String) : String :=
  prKeyBase owner repo pr ++ facet

/-- The wildcard pattern covering every PR-level key of one PR. -/
def prWildcard (owner repo : String) (pr : Nat) : String :=
  prKeyBase owner repo pr ++ "*"

/-- Modelled from the spec: the cache effect of one analyze call on the
PR-level keys (goodtogo/core/analyzer.py is not under src). Spec section 4.3:
when the aggregate status is READY the comments, reviews and threads facets
are written with a TTL; when it is not READY the PR-level keys are
invalidated through invalidate_pattern with the wildcard of the PR, so the
next call re-fetches from the host API. -/
def analyzeCacheUpdate (cache : List CacheEntry) (owner repo : String) (pr : Nat)
    (status : PRStatus) (commentsVal reviewsVal threadsVal : String)
    (now ttl : Nat) : List CacheEntry :=
  if status = PRStatus.READY then
    cacheSet
      (cacheSet
        (cacheSet cache (prFacetKey owner repo pr ("comments")) commentsVal (now + ttl))
        (prFacetKey owner repo pr ("reviews")) reviewsVal (now + ttl))
      (prFacetKey owner repo pr ("threads")) threadsVal (now + ttl)
  else
    invalidatePattern cache (prWildcard owner repo pr)

/-- One argument of build_cache_key: a string or an integer. -/
inductive KeyPart
  | str (s : String)
  | int (i : Int)
deriving DecidableEq, Repr

/-- str applied to a build_cache_key argument. -/
def keyPartToString : KeyPart → String
  | KeyPart.str s => s
  | KeyPart.int i => toString i

/-- Whether a stringified part contains a character that would corrupt the
key structure or inject a glob wildcard. -/
def hasInvalidKeyChar (s : String) : Bool :=
  s.data.any (fun c => c == ':' || c == '*' || c == '?')

/-- The validation verdict for one stringified part: an error message for an
empty part or a part with an invalid character, none when the part is fine. -/
def keyPartError (p : KeyPart) : Option String :=
  if (keyPartToString p).isEmpty then some ("Cache key part cannot be empty")
  else if hasInvalidKeyChar (keyPartToString p) then
    some ("Invalid character in cache key part")
  else none

/-- Modelled from the spec: build_cache_key
(goodtomerge/core/validation.py is not under src). Spec section 4.3: every
part is stringified, rejected if empty and rejected if it contains a colon,
a star or a question mark, checked for every part regardless of position or
type; valid parts are joined with colons. -/
def build_cache_key (parts : List KeyPart) : Except String String :=
  match parts.findSome? keyPartError with
  | some msg => Except.error msg
  | none => Except.ok (String.intercalate ":" (parts.map keyPartToString))

/-- A PR-level CodeRabbit summary comment: no path or line, body carrying the
bot signature and an actionable-comments counter but no markdown summary
header. Taken from the PR-level summary unit tests of the repository. -/
def c4SummaryComment : CommentData :=
  CommentData.mk
    (some ("<!-- This is an auto-generated comment by CodeRabbit -->\n\nActionable comments posted: 1"))
    none none false false ("coderabbitai[bot]")

/-- A CodeRabbit comment whose body declares a Major severity marker before
a Critical severity marker. -/
def c5MajorFirstComment : CommentData :=
  CommentData.mk
    (some ("_⚠️ Potential issue_ | _🟠 Major_\n\n_⚠️ Potential issue_ | _🔴 Critical_"))
    (some ("src/file.py")) (some 42) false false ("coderabbitai[bot]")

/-- A CodeRabbit thank-you acknowledgment comment addressed to a username.
Taken from the acknowledgment unit tests of the repository. -/
def c6AckComment : CommentData :=
  CommentData.mk (some ("`@dsifry` Thank you for the fix!"))
    none none false false ("coderabbitai[bot]")

/-- A CodeRabbit review body carrying a structured Outside diff range
comments block with three items. Taken from the outside-diff unit tests of
the repository. -/
def c9ReviewComment : CommentData :=
  CommentData.mk
    (some ("<details>\n<summary>⚠️ Outside diff range comments (3)</summary>\n\n**src/config.py:42-45**: Consider adding validation for the config values.\n\n**src/utils.py:100**: This function could use memoization for performance.\n\n**tests/test_main.py:15-20**: These tests should use fixtures.\n\n</details>"))
    none none false false ("coderabbitai[bot]")

/-! Theorems. -/

/-- C7: every comment handled by the Vercel parser is classified
(NON_ACTIONABLE, TRIVIAL, false), independent of the resolved and outdated
flags and of the body content, including an empty or missing body. -/
theorem vercel_parse_always_non_actionable_trivial :
    ∀ c : CommentData,
      vercelParse c = (CommentClassification.NON_ACTIONABLE, Priority.TRIVIAL, false) := by
  intro c
  rfl

/-- C10: CodeRabbitParser.parse is a function of the body field alone: two
comment dictionaries with equal body values receive identical
classification triples, whatever their path, line, resolved, outdated and
author fields are. -/
theorem coderabbit_parse_depends_only_on_body :
    ∀ c1 c2 : CommentData, c1.body = c2.body → crParse c1 = crParse c2 := by
  intro c1 c2 h
  unfold crParse
  rw [h]

/-- Witness for C10: the theorem applied to two concrete comments sharing a
body but differing in every other field. -/
theorem coderabbit_parse_depends_only_on_body_witness :
    crParse (CommentData.mk (some ("LGTM")) (some ("a.py")) (some 3) false false ("alice")) =
      crParse (CommentData.mk (some ("LGTM")) none none true true ("vercel[bot]")) :=
  coderabbit_parse_depends_only_on_body _ _ rfl

/-- C4: evaluation of CodeRabbitParser.parse at a PR-level summary comment
whose body carries the bot signature and an actionable-comments counter.
The source classifies it (AMBIGUOUS, UNKNOWN, true), while the
specification and the unit tests of the repository require
(NON_ACTIONABLE, UNKNOWN, false) for PR-level summary comments. -/
theorem coderabbit_pr_summary_code_bug_eval :
    crParse c4SummaryComment = (CommentClassification.AMBIGUOUS, Priority.UNKNOWN, true) := by
  decide

/-- C6: evaluation of CodeRabbitParser.parse at a thank-you acknowledgment
comment. The source classifies it (AMBIGUOUS, UNKNOWN, true), while the
specification and the unit tests of the repository require NON_ACTIONABLE
with requires_investigation false. -/
theorem coderabbit_acknowledgment_code_bug_eval :
    crParse c6AckComment = (CommentClassification.AMBIGUOUS, Priority.UNKNOWN, true) := by
  decide

/-- C9: evaluation of CodeRabbitParser.parse at a review body carrying a
structured Outside diff range comments block. The source has no operation
returning a list of (file_path, line_range, body) entries; the only
treatment such a body receives is the flat body rule that classifies the
whole comment (ACTIONABLE, MINOR, false). -/
theorem coderabbit_outside_diff_block_eval :
    crParse c9ReviewComment = (CommentClassification.ACTIONABLE, Priority.MINOR, false) := by
  decide

/-- Counterexample for C5: a body declaring a Major marker before a Critical
marker is classified (ACTIONABLE, CRITICAL, false), not (ACTIONABLE, MAJOR,
false) as the claim states. -/
theorem coderabbit_first_declared_counterexample :
    crParse c5MajorFirstComment = (CommentClassification.ACTIONABLE, Priority.CRITICAL, false) ∧
      crParse c5MajorFirstComment ≠ (CommentClassification.ACTIONABLE, Priority.MAJOR, false) := by
  constructor <;> decide

set_option maxHeartbeats 1000000 in
/-- Helper: the CodeRabbit classification chain yields AMBIGUOUS exactly on
the branches that set requires_investigation. -/
theorem crClassifyChars_ambiguous_iff : ∀ cs : List Char,
    ((crClassifyChars cs).1 = CommentClassification.AMBIGUOUS ↔
      (crClassifyChars cs).2.2 = true) := by
  intro cs
  unfold crClassifyChars
  repeat' split
  all_goals decide

set_option maxHeartbeats 1000000 in
/-- Helper: the Cursor classification chain yields AMBIGUOUS exactly on the
branches that set requires_investigation. -/
theorem cursorClassifyChars_ambiguous_iff : ∀ cs : List Char,
    ((cursorClassifyChars cs).1 = CommentClassification.AMBIGUOUS ↔
      (cursorClassifyChars cs).2.2 = true) := by
  intro cs
  unfold cursorClassifyChars
  repeat' split
  all_goals decide

/-- C3: for every comment and every parser (CodeRabbit, CursorBugbot,
Vercel, Generic), the returned triple is classified AMBIGUOUS exactly when
its requires_investigation flag is true. -/
theorem parser_ambiguous_iff_requires_investigation :
    ∀ c : CommentData,
      ((crParse c).1 = CommentClassification.AMBIGUOUS ↔ (crParse c).2.2 = true) ∧
      ((cursorParse c).1 = CommentClassification.AMBIGUOUS ↔ (cursorParse c).2.2 = true) ∧
      ((vercelParse c).1 = CommentClassification.AMBIGUOUS ↔ (vercelParse c).2.2 = true) ∧
      ((genericParse c).1 = CommentClassification.AMBIGUOUS ↔ (genericParse c).2.2 = true) := by
  intro c
  refine ⟨crClassifyChars_ambiguous_iff _, cursorClassifyChars_ambiguous_iff _, ?_, ?_⟩
  · simp [vercelParse, vercelParseImpl]
  · unfold genericParse
    repeat' split
    all_goals decide

set_option maxHeartbeats 1000000 in
/-- C5 (amended): when a CodeRabbit body contains several severity markers,
the parser checks them in the fixed order Critical, Major, Minor, and the
first pattern of that order present anywhere in the body wins, regardless
of which marker is declared first; the fingerprint and addressed rules
checked earlier must be absent. -/
theorem coderabbit_severity_check_order :
    ∀ c : CommentData,
      search crFingerprintPat ((c.body.getD "").data) = false →
      search crAddressedPat ((c.body.getD "").data) = false →
      ((search crCriticalPat ((c.body.getD "").data) = true →
          crParse c = (CommentClassification.ACTIONABLE, Priority.CRITICAL, false)) ∧
       (search crCriticalPat ((c.body.getD "").data) = false →
          search crMajorPat ((c.body.getD "").data) = true →
          crParse c = (CommentClassification.ACTIONABLE, Priority.MAJOR, false)) ∧
       (search crCriticalPat ((c.body.getD "").data) = false →
          search crMajorPat ((c.body.getD "").data) = false →
          search crMinorPat ((c.body.getD "").data) = true →
          crParse c = (CommentClassification.ACTIONABLE, Priority.MINOR, false))) := by
  intro c h1 h2
  rcases hb : (c.body.getD "").data with _ | ⟨x, xs⟩
  · exact ⟨fun hs => absurd hs (by decide), fun _ hs => absurd hs (by decide),
      fun _ _ hs => absurd hs (by decide)⟩
  · rw [hb] at h1 h2
    refine ⟨?_, ?_, ?_⟩
    · intro hs
      unfold crParse crClassify
      rw [hb]
      unfold crClassifyChars
      simp [h1, h2, hs]
    · intro hc hs
      unfold crParse crClassify
      rw [hb]
      unfold crClassifyChars
      simp [h1, h2, hc, hs]
    · intro hc hm hs
      unfold crParse crClassify
      rw [hb]
      unfold crClassifyChars
      simp [h1, h2, hc, hm, hs]

/-- Witness for C5: the amended theorem applied to the concrete body that
declares Major before Critical, yielding the Critical classification. -/
theorem coderabbit_severity_check_order_witness :
    crParse c5MajorFirstComment =
      (CommentClassification.ACTIONABLE, Priority.CRITICAL, false) :=
  (coderabbit_severity_check_order c5MajorFirstComment (by decide) (by decide)).1 (by decide)

/-- C2: the aggregate merge-readiness status follows the strict first-match
priority ERROR, CI_FAILING, UNRESOLVED_THREADS, ACTION_REQUIRED, READY:
with no exception, a CI state other than success yields CI_FAILING whatever
the threads and comments are; with CI success, a positive unresolved-thread
count yields UNRESOLVED_THREADS whatever the comments are; with CI success
and no unresolved thread, at least one ACTIONABLE or AMBIGUOUS comment
yields ACTION_REQUIRED; otherwise the status is READY. -/
theorem determine_status_priority :
    ∀ (ci : CIState) (threads : List Bool) (cls : List CommentClassification),
      (determineStatus true ci threads cls = PRStatus.ERROR) ∧
      (ci ≠ CIState.success → determineStatus false ci threads cls = PRStatus.CI_FAILING) ∧
      (0 < unresolvedThreadCount threads →
        determineStatus false CIState.success threads cls = PRStatus.UNRESOLVED_THREADS) ∧
      (unresolvedThreadCount threads = 0 →
        (0 < cls.count CommentClassification.ACTIONABLE ∨
          0 < cls.count CommentClassification.AMBIGUOUS) →
        determineStatus false CIState.success threads cls = PRStatus.ACTION_REQUIRED) ∧
      (unresolvedThreadCount threads = 0 →
        cls.count CommentClassification.ACTIONABLE = 0 →
        cls.count CommentClassification.AMBIGUOUS = 0 →
        determineStatus false CIState.success threads cls = PRStatus.READY) := by
  intro ci threads cls
  refine ⟨by simp [determineStatus], ?_, ?_, ?_, ?_⟩
  · intro h
    simp [determineStatus, h]
  · intro h
    simp [determineStatus, h]
  · intro h0 h
    unfold determineStatus
    rw [if_neg (by simp), if_neg (by simp), if_neg (by simp [h0]), if_pos h]
  · intro h0 ha hb
    simp [determineStatus, h0, ha, hb]

/-- Witness for C2: the theorem applied at concrete inputs exercising each
of the four non-error branches. -/
theorem determine_status_priority_witness :
    determineStatus false CIState.failure [false] [CommentClassification.ACTIONABLE] =
        PRStatus.CI_FAILING ∧
      determineStatus false CIState.success [false] [CommentClassification.ACTIONABLE] =
        PRStatus.UNRESOLVED_THREADS ∧
      determineStatus false CIState.success [true] [CommentClassification.ACTIONABLE] =
        PRStatus.ACTION_REQUIRED ∧
      determineStatus false CIState.success [true] [CommentClassification.NON_ACTIONABLE] =
        PRStatus.READY :=
  ⟨(determine_status_priority CIState.failure [false] [CommentClassification.ACTIONABLE]).2.1
      (by decide),
   (determine_status_priority CIState.success [false] [CommentClassification.ACTIONABLE]).2.2.1
      (by decide),
   (determine_status_priority CIState.success [true] [CommentClassification.ACTIONABLE]).2.2.2.1
      (by decide) (Or.inl (by decide)),
   (determine_status_priority CIState.success [true] [CommentClassification.NON_ACTIONABLE]).2.2.2.2
      (by decide) (by decide) (by decide)⟩

/-- Helper: a part passes validation exactly when its string form is
nonempty and free of colon, star and question mark. -/
theorem keyPartError_eq_none_iff : ∀ p : KeyPart,
    keyPartError p = none ↔
      keyPartToString p ≠ "" ∧ hasInvalidKeyChar (keyPartToString p) = false := by
  intro p
  unfold keyPartError
  split
  · rename_i h
    simp_all [String.isEmpty_iff]
  · split
    · simp_all [String.isEmpty_iff]
    · rename_i h1 h2
      simp_all [String.isEmpty_iff]

/-- Helper: when every part passes validation, no error is found. -/
theorem findSome_keyPartError_none : ∀ parts : List KeyPart,
    (∀ p ∈ parts, keyPartToString p ≠ "" ∧ hasInvalidKeyChar (keyPartToString p) = false) →
    parts.findSome? keyPartError = none := by
  intro parts h
  induction parts with
  | nil => rfl
  | cons a l ih =>
    have ha : keyPartError a = none :=
      (keyPartError_eq_none_iff a).mpr (h a (List.mem_cons_self a l))
    have hl : List.findSome? keyPartError l = none :=
      ih (fun p hp => h p (List.mem_cons_of_mem a hp))
    simp [List.findSome?_cons, ha, hl]

/-- Helper: when some part is empty or carries an invalid character, an
error is found. -/
theorem findSome_keyPartError_some : ∀ parts : List KeyPart,
    (∃ p ∈ parts, keyPartToString p = "" ∨ hasInvalidKeyChar (keyPartToString p) = true) →
    ∃ msg, parts.findSome? keyPartError = some msg := by
  intro parts h
  induction parts with
  | nil => simp at h
  | cons a l ih =>
    cases hp : keyPartError a with
    | some msg => exact ⟨msg, by simp [List.findSome?_cons, hp]⟩
    | none =>
      have ha := (keyPartError_eq_none_iff a).mp hp
      rcases h with ⟨p, hmem, hbad⟩
      rcases List.mem_cons.mp hmem with rfl | hl
      · rcases hbad with hb | hb
        · exact absurd hb ha.1
        · rw [ha.2] at hb
          exact absurd hb (by decide)
      · rcases ih ⟨p, hl, hbad⟩ with ⟨msg, hm⟩
        exact ⟨msg, by simp [List.findSome?_cons, hp, hm]⟩

/-- C8: build_cache_key stringifies every argument, raises a validation
error whenever any argument in any position, string or integer, is empty or
contains a colon, a star or a question mark, and otherwise returns the
stringified parts joined by colons without raising. -/
theorem build_cache_key_validation :
    ∀ parts : List KeyPart,
      ((∃ p ∈ parts, keyPartToString p = "" ∨ hasInvalidKeyChar (keyPartToString p) = true) →
        ∃ msg, build_cache_key parts = Except.error msg) ∧
      ((∀ p ∈ parts, keyPartToString p ≠ "" ∧ hasInvalidKeyChar (keyPartToString p) = false) →
        build_cache_key parts = Except.ok (String.intercalate ":" (parts.map keyPartToString))) := by
  intro parts
  constructor
  · intro h
    rcases findSome_keyPartError_some parts h with ⟨msg, hm⟩
    exact ⟨msg, by unfold build_cache_key; rw [hm]⟩
  · intro h
    unfold build_cache_key
    rw [findSome_keyPartError_none parts h]

/-- Witness for C8: the theorem applied to one argument list rejected for a
colon inside a part and one accepted list mixing strings and an integer. -/
theorem build_cache_key_validation_witness :
    (∃ msg,
        build_cache_key
            [KeyPart.str ("pr"), KeyPart.str ("my:org"), KeyPart.str ("repo"), KeyPart.int 123] =
          Except.error msg) ∧
      build_cache_key
          [KeyPart.str ("pr"), KeyPart.str ("org"), KeyPart.str ("repo"), KeyPart.int 123] =
        Except.ok (String.intercalate ":"
          ([KeyPart.str ("pr"), KeyPart.str ("org"), KeyPart.str ("repo"),
            KeyPart.int 123].map keyPartToString)) :=
  ⟨(build_cache_key_validation _).1 ⟨KeyPart.str ("my:org"), by decide, Or.inr (by decide)⟩,
   (build_cache_key_validation _).2 (by decide)⟩

/-- Helper: every list is its own first suffix. -/
theorem self_mem_suffixesOf : ∀ s : List Char, s ∈ suffixesOf s := by
  intro s
  cases s with
  | nil => exact List.mem_singleton.mpr rfl
  | cons c cs => exact List.mem_cons_self _ _

/-- Helper: a leading star preserves any match of the remaining pattern. -/
theorem glob_star_cons : ∀ (ps s : List Char),
    globMatch ps s = true → globMatch ('*' :: ps) s = true := by
  intro ps s h
  unfold globMatch
  rw [if_pos (by rfl)]
  exact List.any_eq_true.mpr ⟨s, self_mem_suffixesOf s, h⟩

/-- Helper: a lone star matches every string. -/
theorem glob_star_any : ∀ s : List Char, globMatch ['*'] s = true := by
  intro s
  have hnil : globMatch [] ([] : List Char) = true := rfl
  unfold globMatch
  rw [if_pos (by rfl)]
  apply List.any_eq_true.mpr
  refine ⟨[], ?_, hnil⟩
  induction s with
  | nil => exact List.mem_singleton.mpr rfl
  | cons c cs ih => exact List.mem_cons_of_mem _ ih

/-- Helper: a pattern made of a literal prefix and a trailing star matches
every string with that prefix. -/
theorem glob_append_star : ∀ (p s : List Char), globMatch (p ++ ['*']) (p ++ s) = true := by
  intro p
  induction p with
  | nil =>
    intro s
    exact glob_star_any s
  | cons c p ih =>
    intro s
    show globMatch (c :: (p ++ ['*'])) (c :: (p ++ s)) = true
    unfold globMatch
    by_cases h1 : c == '*'
    · rw [if_pos h1]
      apply List.any_eq_true.mpr
      refine ⟨p ++ s, ?_, ih s⟩
      exact List.mem_cons_of_mem _ (self_mem_suffixesOf _)
    · rw [if_neg h1]
      dsimp only
      by_cases h2 : c == '?'
      · rw [if_pos h2]
        exact ih s
      · rw [if_neg h2]
        simp [ih s]

/-- Helper: after invalidate_pattern, a lookup of any key matching the glob
misses. -/
theorem cacheGet_invalidate_none : ∀ (cache : List CacheEntry) (pat key : String) (now : Nat),
    globMatch pat.data key.data = true →
    cacheGet (invalidatePattern cache pat) key now = none := by
  intro cache pat key now h
  induction cache with
  | nil => rfl
  | cons e rest ih =>
    unfold invalidatePattern
    by_cases hm : globMatch pat.data e.key.data = true
    · rw [if_pos hm]
      exact ih
    · rw [if_neg hm]
      unfold cacheGet
      have hne : (e.key == key) = false := by
        apply beq_eq_false_iff_ne.mpr
        intro he
        exact hm (he ▸ h)
      rw [hne]
      simp
      exact ih

/-- Helper: every PR-level facet key of a PR matches the wildcard of that
same PR. -/
theorem prKey_glob : ∀ (o r : String) (n : Nat) (f : String),
    globMatch (prWildcard o r n).data (prFacetKey o r n f).data = true := by
  intro o r n f
  unfold prWildcard prFacetKey
  have h1 : (prKeyBase o r n ++ "*").data = (prKeyBase o r n).data ++ ['*'] := rfl
  have h2 : (prKeyBase o r n ++ f).data = (prKeyBase o r n).data ++ f.data := rfl
  rw [h1, h2]
  exact glob_append_star _ _

/-- C1: whenever the aggregate status of an analyze call is not READY, the
PR-level comments, threads and reviews keys are invalidated through
invalidate_pattern with the wildcard of the PR, so a lookup of any of them
afterwards misses at every instant and a subsequent analyze call re-fetches
from the host API instead of replaying the cached state. -/
theorem analyze_cache_invalidation_on_non_ready :
    ∀ (cache : List CacheEntry) (owner repo : String) (pr : Nat) (status : PRStatus)
      (cv rv tv : String) (now ttl t : Nat),
      status ≠ PRStatus.READY →
      cacheGet (analyzeCacheUpdate cache owner repo pr status cv rv tv now ttl)
          (prFacetKey owner repo pr ("comments")) t = none ∧
      cacheGet (analyzeCacheUpdate cache owner repo pr status cv rv tv now ttl)
          (prFacetKey owner repo pr ("threads")) t = none ∧
      cacheGet (analyzeCacheUpdate cache owner repo pr status cv rv tv now ttl)
          (prFacetKey owner repo pr ("reviews")) t = none := by
  intro cache owner repo pr status cv rv tv now ttl t h
  unfold analyzeCacheUpdate
  rw [if_neg h]
  exact ⟨cacheGet_invalidate_none _ _ _ _ (prKey_glob _ _ _ _),
    cacheGet_invalidate_none _ _ _ _ (prKey_glob _ _ _ _),
    cacheGet_invalidate_none _ _ _ _ (prKey_glob _ _ _ _)⟩

/-- Witness for C1: the theorem applied to a concrete cache holding a
comments entry for the PR, with status ACTION_REQUIRED. -/
theorem analyze_cache_invalidation_on_non_ready_witness :
    cacheGet
        (analyzeCacheUpdate
          [CacheEntry.mk (prFacetKey ("octo") ("repo") 7 ("comments")) ("cached") 100]
          ("octo") ("repo") 7 PRStatus.ACTION_REQUIRED ("a") ("b") ("c") 0 3600)
        (prFacetKey ("octo") ("repo") 7 ("comments")) 0 = none ∧
      cacheGet
        (analyzeCacheUpdate
          [CacheEntry.mk (prFacetKey ("octo") ("repo") 7 ("comments")) ("cached") 100]
          ("octo") ("repo") 7 PRStatus.ACTION_REQUIRED ("a") ("b") ("c") 0 3600)
        (prFacetKey ("octo") ("repo") 7 ("threads")) 0 = none ∧
      cacheGet
        (analyzeCacheUpdate
          [CacheEntry.mk (prFacetKey ("octo") ("repo") 7 ("comments")) ("cached") 100]
          ("octo") ("repo") 7 PRStatus.ACTION_REQUIRED ("a") ("b") ("c") 0 3600)
        (prFacetKey ("octo") ("repo") 7 ("reviews")) 0 = none :=
  analyze_cache_invalidation_on_non_ready
    [CacheEntry.mk (prFacetKey ("octo") ("repo") 7 ("comments")) ("cached") 100]
    ("octo") ("repo") 7 PRStatus.ACTION_REQUIRED ("a") ("b") ("c") 0 3600 0 (by decide)
